import Mathlib

/-!
# Verification of the weight-predict calorie tracker core

Shallow embedding of the engine in `src/index.tsx`: biometric BMR/TDEE
calculation, the meal ledger quantity update, the daily-record upsert,
the AI food-estimation handler, and the trend-chart coordinate mapping.

Conventions of the embedding:
* JavaScript `number` values are modelled as `ℚ`; `Math.round` is
  Mathlib's `round` (both round half toward positive infinity).
* Fields typed `number | ''` in the source (`UserStats.age` etc.) are
  `Option ℚ`, with `none` for `''`.  The source's truthiness test `!x`
  holds exactly for `''`, `0` (and `NaN`, not modelled), so it is the
  predicate `falsyNum` below.
* Values coming out of `JSON.parse` may be absent at runtime regardless
  of the TypeScript annotations (the source performs no shape
  validation), so payload-derived fields are `Option`-valued.
* Calendar dates are modelled as `ℕ` timestamps: the source compares
  `YYYY-MM-DD` strings by equality and sorts by `Date.getTime()`, and
  for well-formed zero-padded dates both agree with the numeric order.
-/

namespace WeightPredict

inductive Gender where
  | male
  | female
deriving DecidableEq, Repr

inductive Goal where
  | lose
  | maintain
  | gain
deriving DecidableEq, Repr

/-- `UserStats` from the source; `age`, `weight`, `height` are
`number | ''` there, hence `Option ℚ` here. -/
structure UserStats where
  age : Option ℚ
  gender : Gender
  weight : Option ℚ
  height : Option ℚ
  activityLevel : ℚ
  goal : Goal
deriving DecidableEq, Repr

/-- JavaScript falsiness of a `number | ''` value: `''` or `0`. -/
def falsyNum : Option ℚ → Bool
  | none => true
  | some v => decide (v = 0)

/-- `INITIAL_STATS` from the source. -/
def INITIAL_STATS : UserStats :=
  { age := some 30, gender := .male, weight := some 70, height := some 175
    activityLevel := 11/8, goal := .lose }

/-- `calculateBMR` from the source: guard `!weight || !height || !age`
then the Mifflin-St Jeor formula. -/
def calculateBMR (stats : UserStats) : ℚ :=
  if falsyNum stats.weight || falsyNum stats.height || falsyNum stats.age then 0
  else
    10 * stats.weight.getD 0 + (25/4) * stats.height.getD 0
      - 5 * stats.age.getD 0
      + (if stats.gender = Gender.male then 5 else -161)

/-- `calculateTDEE` from the source: `Math.round(bmr * activityLevel)`. -/
def calculateTDEE (stats : UserStats) : ℤ :=
  round (calculateBMR stats * stats.activityLevel)

/-- A profile with a negative age (and otherwise the default fields). -/
def statsNegAge : UserStats :=
  { age := some (-1), gender := .male, weight := some 70, height := some 175
    activityLevel := 11/8, goal := .lose }

inductive Source where
  | ai
  | user
deriving DecidableEq, Repr

/-- `FoodItem` from the source.  `name`, `calories` and `unit` originate
from unvalidated `JSON.parse` output on the AI path, so at runtime they
may be `undefined` (`none`) despite the TypeScript annotations. -/
structure FoodItem where
  id : String
  name : Option String
  calories : Option ℚ
  unit : Option String
  quantity : ℚ
  source : Source
deriving DecidableEq, Repr

/-- `updateQuantity` from the source: clamp the matching entry's quantity
to `max(0.5, quantity + delta)`, then filter every entry whose quantity
is not `> 0`. -/
def updateQuantity (meals : List FoodItem) (id : String) (delta : ℚ) :
    List FoodItem :=
  (meals.map (fun item =>
      if item.id = id then
        { item with quantity := max (1/2) (item.quantity + delta) }
      else item)).filter
    (fun item => decide (0 < item.quantity))

/-- A ledger entry with quantity 0, not producible by the app's own
operations but allowed by the `FoodItem` type. -/
def zeroQtyMeal : FoodItem :=
  { id := "b", name := some "x", calories := some 1, unit := some "u"
    quantity := 0, source := .user }

/-- A ledger entry sitting at the 0.5 quantity floor. -/
def mealHalf : FoodItem :=
  { id := "a", name := some "f", calories := some 10, unit := some "u"
    quantity := 1/2, source := .user }

/-- `DailyRecord` from the source; the date is modelled by its
`Date.getTime()` value (a natural number). -/
structure DailyRecord where
  date : ℕ
  caloriesIntake : ℤ
  caloriesBurned : ℤ
  weight : Option ℚ
deriving DecidableEq, Repr

/-- The sort order of the history table: the comparator
`(a, b) => time(b) - time(a)` places more recent dates first. -/
def recentFirst (a b : DailyRecord) : Prop := b.date ≤ a.date

instance : DecidableRel recentFirst := fun a b =>
  inferInstanceAs (Decidable (b.date ≤ a.date))

instance : IsTotal DailyRecord recentFirst :=
  ⟨fun a b => le_total b.date a.date⟩

instance : IsTrans DailyRecord recentFirst :=
  ⟨fun _ _ _ hab hbc => le_trans hbc hab⟩

/-- The history update performed by `handleSaveRecord` in the source:
drop any record with the new record's date, append the new record, and
sort the whole collection most-recent-first. -/
def handleSaveRecord (history : List DailyRecord) (newRecord : DailyRecord) :
    List DailyRecord :=
  List.insertionSort recentFirst
    ((history.filter (fun r => decide (r.date ≠ newRecord.date))) ++ [newRecord])

/-- The store invariant: at most one record per calendar date. -/
def atMostOnePerDate (l : List DailyRecord) : Prop :=
  ∀ d, l.countP (fun r => decide (r.date = d)) ≤ 1

/-- A saved record for day 1. -/
def recA : DailyRecord := ⟨1, 2000, 2267, some 70⟩

/-- A second record for day 1 (same date as `recA`). -/
def recB : DailyRecord := ⟨1, 1800, 2267, none⟩

/-- A record for day 2. -/
def recC : DailyRecord := ⟨2, 1500, 2267, none⟩

/-- `LibraryItem` from the source.  Its fields are copied verbatim from
`JSON.parse` output without validation, so at runtime each may be
`undefined` (`none`) or, for `calories`, a non-number (also `none` here,
since only its presence as a number is observable to the claims). -/
structure LibraryItem where
  name : Option String
  calories : Option ℚ
  unit : Option String
deriving DecidableEq, Repr

/-- `handleAddFood` from the source: appends a new entry with quantity 1
and `source: 'user'` — hard-coded for every caller, including the AI
path.  `newId` stands for the `Date.now().toString()` token. -/
def handleAddFood (meals : List FoodItem) (item : LibraryItem)
    (newId : String) : List FoodItem :=
  meals ++ [{ id := newId, name := item.name, calories := item.calories
              unit := item.unit, quantity := 1, source := Source.user }]

/-- The observable outcomes of the awaited `generateContent` call plus
the subsequent `response.text` / `JSON.parse` steps in `handleAiEstimate`:
the call throws; the text is falsy; the text is not valid JSON; or parsing
succeeds and the three fields are read off the object as-is. -/
inductive ResolverOutcome where
  | failure
  | emptyText
  | badJson
  | parsed (data : LibraryItem)
deriving DecidableEq, Repr

/-- The component state read and written by `handleAiEstimate`. -/
structure AiState where
  searchQuery : String
  foodLibrary : List LibraryItem
  currentMeals : List FoodItem
  aiError : String
deriving DecidableEq, Repr

/-- JavaScript `String.prototype.trim`: strip leading and trailing
whitespace.  (Defined over the character list so it computes.) -/
def jsTrim (s : String) : String :=
  String.mk
    (((s.data.dropWhile Char.isWhitespace).reverse.dropWhile
        Char.isWhitespace).reverse)

/-- The missing-key error message set by `handleAiEstimate`. -/
def keyErrorMsg : String := "未检测到 API Key，请在 Vercel 环境变量中配置 VITE_API_KEY"

/-- The catch-branch error message set by `handleAiEstimate`. -/
def serviceErrorMsg : String := "AI 服务暂时不可用，请检查 Key 或重试"

/-- `handleAiEstimate` from the source, as a state transformer.  Returns
the new state and whether the external AI call was actually made.  Note
the source never consults `foodLibrary` before calling the AI; the
library is only checked to avoid inserting a duplicate name. -/
def handleAiEstimate (st : AiState) (apiKey : String)
    (outcome : ResolverOutcome) (newId : String) : AiState × Bool :=
  if jsTrim st.searchQuery = "" then (st, false)
  else if apiKey = "" then ({ st with aiError := keyErrorMsg }, false)
  else
    match outcome with
    | .failure => ({ st with aiError := serviceErrorMsg }, true)
    | .emptyText => ({ st with aiError := "" }, true)
    | .badJson => ({ st with aiError := serviceErrorMsg }, true)
    | .parsed data =>
        ({ searchQuery := ""
           foodLibrary :=
             if st.foodLibrary.any (fun f => decide (f.name = data.name)) then
               st.foodLibrary
             else st.foodLibrary ++ [data]
           currentMeals := handleAddFood st.currentMeals data newId
           aiError := "" }, true)

/-- A well-formed library item. -/
def appleItem : LibraryItem := ⟨some "苹果", some 95, some "个"⟩

/-- A state whose library already caches `appleItem`'s name. -/
def stCached : AiState := ⟨"苹果", [appleItem], [], ""⟩

/-- A payload with no usable `calories` field (missing or non-numeric). -/
def malformedItem : LibraryItem := ⟨some "神秘菜", none, some "碗"⟩

/-- A state with an empty library and a non-empty query. -/
def stFresh : AiState := ⟨"神秘菜", [], [], ""⟩

/-- The Y-scale maximum of the history chart from the source:
`Math.max(...sortedHistory.map(h => h.caloriesIntake), tdee) * 1.2`. -/
def maxVal (window : List DailyRecord) (tdee : ℚ) : ℚ :=
  ((window.map (fun h => (h.caloriesIntake : ℚ))).foldr max tdee) * (6/5)

/-- `getX` from the source: horizontal placement of point `i` among `n`
points — centered at 50 for a single point, else evenly spaced over
`[0, 100]`. -/
def getX (n i : ℕ) : ℚ :=
  if n ≤ 1 then 50 else (i : ℚ) / ((n : ℚ) - 1) * 100

/-- `getY` from the source: `height - (val / maxVal) * height` with
`height = 50`. -/
def getY (maxV v : ℚ) : ℚ := 50 - v / maxV * 50

/-- The plotted points of the chart, one per record in window order. -/
def chartPoints (window : List DailyRecord) (tdee : ℚ) : List (ℚ × ℚ) :=
  window.enum.map
    (fun p => (getX window.length p.1, getY (maxVal window tdee) (p.2.caloriesIntake : ℚ)))

/-- The straight segment from `a` to `b` at parameter `t`. -/
def segEval (a b : ℚ × ℚ) (t : ℚ) : ℚ × ℚ :=
  ((1 - t) * a.1 + t * b.1, (1 - t) * a.2 + t * b.2)

/-- The rendered trend curve from the source: the SVG `polyline` element
connects consecutive plotted points by straight segments, so the point at
parameter `t` along segment `i` is the linear interpolation between the
`i`-th and `(i+1)`-th plotted points. -/
def polylineSeg (pts : List (ℚ × ℚ)) (i : ℕ) (t : ℚ) : ℚ × ℚ :=
  segEval (pts.getD i (0, 0)) (pts.getD (i + 1) (0, 0)) t

/-- Cubic Bézier evaluation with endpoints `p0`, `p3` and control points
`c1`, `c2`. -/
def bezierEval (p0 c1 c2 p3 : ℚ × ℚ) (t : ℚ) : ℚ × ℚ :=
  ((1 - t)^3 * p0.1 + 3 * (1 - t)^2 * t * c1.1
      + 3 * (1 - t) * t^2 * c2.1 + t^3 * p3.1,
   (1 - t)^3 * p0.2 + 3 * (1 - t)^2 * t * c1.2
      + 3 * (1 - t) * t^2 * c2.2 + t^3 * p3.2)

/-- Modelled from the spec: the Catmull-Rom-style cubic segment the spec
describes for the trend curve (the source has no such code) — control
points from the 1/6-neighbor-difference tangent rule, with the first and
last points using themselves as their missing neighbor. -/
def specCatmullSeg (pts : List (ℚ × ℚ)) (i : ℕ) (t : ℚ) : ℚ × ℚ :=
  let p1 := pts.getD i (0, 0)
  let p2 := pts.getD (i + 1) (0, 0)
  let p0 := if i = 0 then p1 else pts.getD (i - 1) (0, 0)
  let p3 := if i + 2 < pts.length then pts.getD (i + 2) (0, 0) else p2
  bezierEval p1
    (p1.1 + (p2.1 - p0.1) / 6, p1.2 + (p2.2 - p0.2) / 6)
    (p2.1 - (p3.1 - p1.1) / 6, p2.2 - (p3.2 - p1.2) / 6)
    p2 t

/-- A three-record window with a non-collinear intake profile. -/
def wr1 : DailyRecord := ⟨1, 0, 100, none⟩

/-- Second record of the three-record window. -/
def wr2 : DailyRecord := ⟨2, 100, 100, none⟩

/-- Third record of the three-record window. -/
def wr3 : DailyRecord := ⟨3, 0, 100, none⟩

end WeightPredict

namespace WeightPredict

/-- C1 (counterexample): the claim says `computeBMR` returns 0 when age is
non-positive, including negative values; but on a male profile with age −1,
weight 70, height 175 the guard does not fire (JS `!(-1)` is false) and the
formula yields 1803.75 ≠ 0. -/
theorem calculateBMR_neg_age_not_zero :
    calculateBMR statsNegAge = 7215/4 ∧ calculateBMR statsNegAge ≠ 0 := by
  constructor
  · norm_num [calculateBMR, statsNegAge, falsyNum]
  · norm_num [calculateBMR, statsNegAge, falsyNum]

/-- C1 (amended): `calculateBMR` returns 0 exactly when age, weight or
height is missing (`''`) or zero; whenever all three are present and
nonzero — including negative values — the Mifflin-St Jeor formula is
applied unguarded. -/
theorem calculateBMR_spec :
    (∀ s : UserStats,
       (s.age = none ∨ s.age = some 0 ∨ s.weight = none ∨ s.weight = some 0 ∨
        s.height = none ∨ s.height = some 0) → calculateBMR s = 0)
    ∧ (∀ (s : UserStats) (a w h : ℚ),
        s.age = some a → s.weight = some w → s.height = some h →
        a ≠ 0 → w ≠ 0 → h ≠ 0 →
        calculateBMR s =
          10 * w + (25/4) * h - 5 * a
            + (if s.gender = Gender.male then 5 else -161)) := by
  constructor
  · intro s hs
    unfold calculateBMR
    rcases hs with h | h | h | h | h | h <;> simp [falsyNum, h]
  · intro s a w h ha hw hh ha0 hw0 hh0
    unfold calculateBMR
    simp [falsyNum, ha, hw, hh, ha0, hw0, hh0]

/-- C1 (witness): the amended theorem instantiated at a concrete zero-age
profile and at the default profile. -/
theorem calculateBMR_spec_witness :
    calculateBMR { INITIAL_STATS with age := some 0 } = 0
    ∧ calculateBMR INITIAL_STATS =
        10 * 70 + (25/4) * 175 - 5 * 30
          + (if INITIAL_STATS.gender = Gender.male then 5 else -161) :=
  ⟨calculateBMR_spec.1 _ (Or.inr (Or.inl rfl)),
   calculateBMR_spec.2 INITIAL_STATS 30 70 175 rfl rfl rfl
     (by norm_num) (by norm_num) (by norm_num)⟩

/-- C2: for profiles with positive age, weight and height,
`calculateTDEE p = round (calculateBMR p * activity)`; and on the default
male profile (age 30, weight 70 kg, height 175 cm, activity 1.375) the BMR
is 1648.75 and the TDEE is 2267. -/
theorem calculateTDEE_spec :
    (∀ (s : UserStats) (a w h : ℚ),
        s.age = some a → 0 < a → s.weight = some w → 0 < w →
        s.height = some h → 0 < h →
        calculateTDEE s = round (calculateBMR s * s.activityLevel))
    ∧ calculateBMR INITIAL_STATS = 6595/4
    ∧ calculateTDEE INITIAL_STATS = 2267 := by
  refine ⟨fun s a w h _ _ _ _ _ _ => rfl,
    by norm_num [calculateBMR, INITIAL_STATS, falsyNum], ?_⟩
  unfold calculateTDEE
  norm_num [calculateBMR, INITIAL_STATS, falsyNum, round_eq]

/-- C2 (witness): the TDEE/BMR relation instantiated at the default profile. -/
theorem calculateTDEE_spec_witness :
    calculateTDEE INITIAL_STATS =
      round (calculateBMR INITIAL_STATS * INITIAL_STATS.activityLevel) :=
  calculateTDEE_spec.1 INITIAL_STATS 30 70 175 rfl (by norm_num) rfl
    (by norm_num) rfl (by norm_num)

/-- C3: `updateQuantity` sets a matching entry's quantity to
`max(0.5, quantity + delta)`, so the result is never below 0.5; a
decrement at the 0.5 floor leaves the quantity at 0.5; and the adjusted
entry is never removed from the ledger (it survives the `> 0` filter). -/
theorem updateQuantity_clamps (meals : List FoodItem) (id : String) (delta : ℚ)
    (item : FoodItem) (hmem : item ∈ meals) (hid : item.id = id) :
    ({ item with quantity := max (1/2) (item.quantity + delta) } ∈
        updateQuantity meals id delta)
    ∧ (1:ℚ)/2 ≤ max (1/2) (item.quantity + delta)
    ∧ (item.quantity = 1/2 → delta ≤ 0 →
        max (1/2) (item.quantity + delta) = 1/2) := by
  refine ⟨?_, le_max_left _ _, ?_⟩
  · refine List.mem_filter.mpr ⟨List.mem_map.mpr ⟨item, hmem, by simp [hid]⟩, ?_⟩
    simp only [decide_eq_true_eq]
    exact lt_of_lt_of_le (by norm_num) (le_max_left _ _)
  · intro hq hd
    rw [hq, max_eq_left (by linarith)]

/-- C3 (witness): a decrement of 0.5 on an entry already at the 0.5 floor
keeps it in the ledger at quantity 0.5. -/
theorem updateQuantity_clamps_witness :
    ({ mealHalf with quantity := max (1/2) (mealHalf.quantity + (-(1/2))) } ∈
        updateQuantity [mealHalf] "a" (-(1/2)))
    ∧ max ((1:ℚ)/2) (mealHalf.quantity + (-(1/2))) = 1/2 :=
  have h := updateQuantity_clamps [mealHalf] "a" (-(1/2)) mealHalf
    (List.mem_singleton.mpr rfl) rfl
  ⟨h.1, h.2.2 rfl (by norm_num)⟩

/-- C10 (counterexample): the claim says an unknown id leaves the ledger
unchanged for every ledger; but on a ledger holding an entry of quantity 0
the trailing `> 0` filter removes that entry even though no id matched. -/
theorem updateQuantity_drops_zero_qty :
    updateQuantity [zeroQtyMeal] "a" 1 = []
    ∧ ([zeroQtyMeal] : List FoodItem) ≠ [] := by
  constructor
  · simp [updateQuantity, zeroQtyMeal]
  · simp

/-- C10 (amended): on ledgers whose entries all have positive quantity
(the invariant the app maintains), `updateQuantity` only rewrites the
matching entries in place — every other entry is unchanged field-by-field
and order is preserved — and an unknown id is a silent no-op. -/
theorem updateQuantity_frame (meals : List FoodItem) (id : String) (delta : ℚ)
    (hpos : ∀ e ∈ meals, 0 < e.quantity) :
    updateQuantity meals id delta =
      meals.map (fun item =>
        if item.id = id then
          { item with quantity := max (1/2) (item.quantity + delta) }
        else item)
    ∧ ((∀ e ∈ meals, e.id ≠ id) → updateQuantity meals id delta = meals) := by
  have hfilter : updateQuantity meals id delta =
      meals.map (fun item =>
        if item.id = id then
          { item with quantity := max (1/2) (item.quantity + delta) }
        else item) := by
    unfold updateQuantity
    refine List.filter_eq_self.mpr ?_
    intro a ha
    rcases List.mem_map.mp ha with ⟨e, he, rfl⟩
    by_cases h : e.id = id
    · simp only [h, if_pos rfl, decide_eq_true_eq]
      exact lt_of_lt_of_le (by norm_num) (le_max_left _ _)
    · simp only [if_neg h, decide_eq_true_eq]
      exact hpos e he
  refine ⟨hfilter, fun hnone => ?_⟩
  rw [hfilter]
  have : ∀ e ∈ meals,
      (if e.id = id then
        { e with quantity := max (1/2) (e.quantity + delta) }
      else e) = e := by
    intro e he
    rw [if_neg (hnone e he)]
  rw [List.map_congr_left this]
  exact List.map_id' meals

/-- C10 (witness): adjusting an unknown id on a one-entry positive ledger
leaves the ledger exactly as it was. -/
theorem updateQuantity_frame_witness :
    updateQuantity [mealHalf] "z" 1 = [mealHalf] :=
  (updateQuantity_frame [mealHalf] "z" 1
      (by intro e he; rw [List.mem_singleton.mp he]; norm_num [mealHalf])).2
    (by intro e he; rw [List.mem_singleton.mp he]; simp [mealHalf])

/-- C4: saving a record removes any existing record with the same date and
inserts the new one (the result holds exactly one record with that date),
leaves every other date's count unchanged, keeps the collection sorted
most-recent-first, preserves the at-most-one-record-per-date invariant,
and a second save with the same date replaces rather than duplicates. -/
theorem handleSaveRecord_upsert (history : List DailyRecord) (rec : DailyRecord) :
    (handleSaveRecord history rec).countP (fun r => decide (r.date = rec.date)) = 1
    ∧ (∀ d, d ≠ rec.date →
        (handleSaveRecord history rec).countP (fun r => decide (r.date = d)) =
          history.countP (fun r => decide (r.date = d)))
    ∧ rec ∈ handleSaveRecord history rec
    ∧ List.Sorted recentFirst (handleSaveRecord history rec)
    ∧ (atMostOnePerDate history → atMostOnePerDate (handleSaveRecord history rec))
    ∧ (∀ rec2 : DailyRecord, rec2.date = rec.date →
        (handleSaveRecord (handleSaveRecord history rec) rec2).countP
          (fun r => decide (r.date = rec.date)) = 1) := by
  have key : ∀ (h : List DailyRecord) (r : DailyRecord),
      (handleSaveRecord h r).countP (fun x => decide (x.date = r.date)) = 1 := by
    intro h r
    unfold handleSaveRecord
    rw [(List.perm_insertionSort recentFirst _).countP_eq, List.countP_append]
    have h0 : (h.filter fun x => decide (x.date ≠ r.date)).countP
        (fun x => decide (x.date = r.date)) = 0 := by
      rw [List.countP_eq_zero]
      intro a ha
      have h2 := (List.mem_filter.mp ha).2
      simp only [decide_eq_true_eq] at h2 ⊢
      exact h2
    rw [h0, List.countP_singleton]
    simp
  have keyOther : ∀ d, d ≠ rec.date →
      (handleSaveRecord history rec).countP (fun x => decide (x.date = d)) =
        history.countP (fun x => decide (x.date = d)) := by
    intro d hd
    unfold handleSaveRecord
    rw [(List.perm_insertionSort recentFirst _).countP_eq, List.countP_append,
      List.countP_singleton, List.countP_filter]
    have hrec : ¬ (decide (rec.date = d) = true) := by
      simp only [decide_eq_true_eq]
      exact fun hc => hd (hc.symm)
    rw [if_neg hrec, Nat.add_zero]
    refine List.countP_congr ?_
    intro x _
    by_cases hxd : x.date = d
    · simp [hxd, hd]
    · simp [hxd]
  refine ⟨key history rec, keyOther, ?_, ?_, ?_, ?_⟩
  · exact (List.perm_insertionSort recentFirst _).mem_iff.mpr (by simp)
  · exact List.sorted_insertionSort recentFirst _
  · intro hinv d
    by_cases hd : d = rec.date
    · subst hd
      exact le_of_eq (key history rec)
    · rw [keyOther d hd]
      exact hinv d
  · intro rec2 h2
    have h := key (handleSaveRecord history rec) rec2
    rw [h2] at h
    exact h

/-- C4 (witness): saving day-1 record `recA` over `[recC]` and then saving
`recB` (same date) leaves exactly one record for day 1. -/
theorem handleSaveRecord_upsert_witness :
    (handleSaveRecord (handleSaveRecord [recC] recA) recB).countP
      (fun r => decide (r.date = recA.date)) = 1
    ∧ recA ∈ handleSaveRecord [recC] recA :=
  ⟨(handleSaveRecord_upsert [recC] recA).2.2.2.2.2 recB rfl,
   (handleSaveRecord_upsert [recC] recA).2.2.1⟩

/-- C5 (counterexample): the claim says a lookup of a name already in the
FoodLibrary is a cache hit that does not invoke the resolver; but the
handler never consults the library before calling the AI, so even with
`appleItem` cached the resolver is invoked (the returned flag is true). -/
theorem aiEstimate_always_resolves :
    stCached.foodLibrary.any (fun f => decide (f.name = appleItem.name)) = true
    ∧ (handleAiEstimate stCached "key" (.parsed appleItem) "1").2 = true := by
  constructor
  · rfl
  · rfl

/-- C5 (amended): with a non-empty query and a configured key, every call
invokes the resolver — also when the name is already cached; the cache
only prevents duplicate insertion: when the resolved name is already in
the library, the library is left unchanged. -/
theorem aiEstimate_resolver_per_call (st : AiState) (apiKey : String)
    (outcome : ResolverOutcome) (newId : String)
    (hq : ¬ jsTrim st.searchQuery = "") (hk : ¬ apiKey = "") :
    (handleAiEstimate st apiKey outcome newId).2 = true
    ∧ (∀ data : LibraryItem, outcome = .parsed data →
        st.foodLibrary.any (fun f => decide (f.name = data.name)) = true →
        (handleAiEstimate st apiKey outcome newId).1.foodLibrary =
          st.foodLibrary) := by
  constructor
  · cases outcome <;> simp [handleAiEstimate, if_neg hq, if_neg hk]
  · intro data hd hany
    subst hd
    simp [handleAiEstimate, if_neg hq, if_neg hk, hany]

/-- C5 (witness): the amended behavior at the cached state — the resolver
is invoked yet the library stays as it was. -/
theorem aiEstimate_resolver_per_call_witness :
    (handleAiEstimate stCached "key" (.parsed appleItem) "1").2 = true
    ∧ (handleAiEstimate stCached "key" (.parsed appleItem) "1").1.foodLibrary =
        stCached.foodLibrary :=
  have h := aiEstimate_resolver_per_call stCached "key" (.parsed appleItem) "1"
    (by decide) (by decide)
  ⟨h.1, h.2 appleItem rfl (by rfl)⟩

/-- C6 (counterexample): the claim says a malformed payload (non-numeric
calories, missing fields) makes the lookup fail with no mutation; but a
payload whose `calories` field is unusable is accepted — the library is
mutated and no error is raised — because the source performs no shape
validation after `JSON.parse`. -/
theorem aiEstimate_no_validation :
    malformedItem.calories = none
    ∧ (handleAiEstimate stFresh "key" (.parsed malformedItem) "1").1.foodLibrary
        = [malformedItem]
    ∧ (handleAiEstimate stFresh "key" (.parsed malformedItem) "1").1.aiError
        = "" :=
  ⟨rfl, rfl, rfl⟩

/-- C6 (amended): only a resolver failure or unparseable JSON produce the
error message, and on those paths neither the FoodLibrary nor the
MealLedger is mutated; an empty response text is a silent no-op; a
successfully parsed payload is accepted without shape validation (never
an error), whatever its fields. -/
theorem aiEstimate_error_paths (st : AiState) (apiKey : String) (newId : String)
    (hq : ¬ jsTrim st.searchQuery = "") (hk : ¬ apiKey = "") :
    (∀ outcome,
      outcome = ResolverOutcome.failure ∨ outcome = ResolverOutcome.badJson →
        (handleAiEstimate st apiKey outcome newId).1.foodLibrary = st.foodLibrary
        ∧ (handleAiEstimate st apiKey outcome newId).1.currentMeals =
            st.currentMeals
        ∧ (handleAiEstimate st apiKey outcome newId).1.aiError = serviceErrorMsg)
    ∧ ((handleAiEstimate st apiKey ResolverOutcome.emptyText newId).1.foodLibrary
          = st.foodLibrary
        ∧ (handleAiEstimate st apiKey ResolverOutcome.emptyText newId).1.currentMeals
          = st.currentMeals
        ∧ (handleAiEstimate st apiKey ResolverOutcome.emptyText newId).1.aiError
          = "")
    ∧ (∀ data : LibraryItem,
        (handleAiEstimate st apiKey (ResolverOutcome.parsed data) newId).1.aiError
          = "") := by
  refine ⟨?_, ?_, ?_⟩
  · intro outcome h
    rcases h with h | h <;> subst h <;>
      simp [handleAiEstimate, if_neg hq, if_neg hk]
  · simp [handleAiEstimate, if_neg hq, if_neg hk]
  · intro data
    simp [handleAiEstimate, if_neg hq, if_neg hk]

/-- C6 (witness): a resolver failure at the fresh state sets the service
error and leaves library and ledger untouched. -/
theorem aiEstimate_error_paths_witness :
    (handleAiEstimate stFresh "key" ResolverOutcome.failure "1").1.foodLibrary
      = stFresh.foodLibrary
    ∧ (handleAiEstimate stFresh "key" ResolverOutcome.failure "1").1.currentMeals
      = stFresh.currentMeals
    ∧ (handleAiEstimate stFresh "key" ResolverOutcome.failure "1").1.aiError
      = serviceErrorMsg :=
  (aiEstimate_error_paths stFresh "key" "1" (by decide) (by decide)).1
    ResolverOutcome.failure (Or.inl rfl)

/-- C7 (counterexample): the claim says entries added via the AI path are
marked ai-estimated; but the entry appended by a successful AI estimate
carries `source = user` (the handler hard-codes it). -/
theorem aiEstimate_source_is_user :
    ((handleAiEstimate stFresh "key" (.parsed malformedItem) "1").1.currentMeals.map
        (fun e => e.source)) = [Source.user]
    ∧ Source.user ≠ Source.ai := by
  refine ⟨rfl, ?_⟩
  intro h
  cases h

/-- C7 (amended): `handleAddFood` appends exactly one new entry with
quantity 1, keeping the existing entries as a prefix; its provenance is
always user-entered regardless of the caller — the AI-estimation path
also goes through `handleAddFood` and produces user-entered entries. -/
theorem handleAddFood_spec (meals : List FoodItem) (item : LibraryItem)
    (newId : String) :
    (handleAddFood meals item newId).length = meals.length + 1
    ∧ (handleAddFood meals item newId).take meals.length = meals
    ∧ (handleAddFood meals item newId).getLast? = some
        { id := newId, name := item.name, calories := item.calories
          unit := item.unit, quantity := 1, source := Source.user }
    ∧ (∀ (st : AiState) (apiKey : String) (data : LibraryItem),
        ¬ jsTrim st.searchQuery = "" → ¬ apiKey = "" →
        (handleAiEstimate st apiKey (.parsed data) newId).1.currentMeals =
          handleAddFood st.currentMeals data newId) := by
  refine ⟨?_, ?_, ?_, ?_⟩
  · simp [handleAddFood]
  · unfold handleAddFood
    exact List.take_left meals _
  · exact List.getLast?_concat _
  · intro st apiKey data hq hk
    simp [handleAiEstimate, if_neg hq, if_neg hk]

/-- C7 (witness): adding `appleItem` to the empty ledger via the AI path
produces the single `handleAddFood` entry (quantity 1, user provenance). -/
theorem handleAddFood_spec_witness :
    (handleAddFood [] appleItem "7").getLast? = some
      { id := "7", name := appleItem.name, calories := appleItem.calories
        unit := appleItem.unit, quantity := 1, source := Source.user }
    ∧ (handleAiEstimate stFresh "key" (.parsed appleItem) "7").1.currentMeals =
        handleAddFood stFresh.currentMeals appleItem "7" :=
  ⟨(handleAddFood_spec [] appleItem "7").2.2.1,
   (handleAddFood_spec stFresh.currentMeals appleItem "7").2.2.2 stFresh "key"
     appleItem (by decide) (by decide)⟩

/-- `foldr max t` bounds its seed and every list element from above. -/
theorem foldr_max_bounds (l : List ℚ) (t : ℚ) :
    t ≤ l.foldr max t ∧ ∀ x ∈ l, x ≤ l.foldr max t := by
  induction l with
  | nil => exact ⟨le_refl t, fun x hx => absurd hx (List.not_mem_nil x)⟩
  | cons a l ih =>
      refine ⟨le_trans ih.1 (le_max_right a _), ?_⟩
      intro x hx
      rcases List.mem_cons.mp hx with rfl | hx
      · exact le_max_left _ _
      · exact le_trans (ih.2 x hx) (le_max_right a _)

/-- `foldr max t` is attained at the seed or at a list element. -/
theorem foldr_max_attained (l : List ℚ) (t : ℚ) :
    l.foldr max t = t ∨ ∃ x ∈ l, l.foldr max t = x := by
  induction l with
  | nil => exact Or.inl rfl
  | cons a l ih =>
      rcases le_total a (l.foldr max t) with h | h
      · rw [List.foldr_cons, max_eq_right h]
        rcases ih with h2 | ⟨x, hx, h2⟩
        · exact Or.inl h2
        · exact Or.inr ⟨x, List.mem_cons_of_mem a hx, h2⟩
      · exact Or.inr ⟨a, List.mem_cons_self a l,
          by rw [List.foldr_cons, max_eq_left h]⟩

/-- C8 (counterexample): the claim says the Y-scale maximum is the window
and TDEE maximum times 1.15; on the one-record window with intake 100 and
TDEE 100 the source computes 120 (times 1.2), not 115. -/
theorem maxVal_not_fifteen_percent :
    maxVal [wr2] 100 = 120
    ∧ maxVal [wr2] 100 ≠ max ((wr2.caloriesIntake : ℚ)) 100 * (23/20) := by
  constructor <;> norm_num [maxVal, wr2]

/-- C8 (amended): the Y-scale maximum is the maximum of the window's
intake values and the TDEE multiplied by 1.2 (20% headroom): it dominates
`tdee * 1.2` and every `intake * 1.2`, and is attained at one of them. -/
theorem maxVal_headroom (window : List DailyRecord) (tdee : ℚ) :
    tdee * (6/5) ≤ maxVal window tdee
    ∧ (∀ r ∈ window, (r.caloriesIntake : ℚ) * (6/5) ≤ maxVal window tdee)
    ∧ (maxVal window tdee = tdee * (6/5)
        ∨ ∃ r ∈ window, maxVal window tdee = (r.caloriesIntake : ℚ) * (6/5)) := by
  have hb := foldr_max_bounds (window.map (fun h => (h.caloriesIntake : ℚ))) tdee
  have ha := foldr_max_attained (window.map (fun h => (h.caloriesIntake : ℚ))) tdee
  refine ⟨?_, ?_, ?_⟩
  · exact mul_le_mul_of_nonneg_right hb.1 (by norm_num)
  · intro r hr
    exact mul_le_mul_of_nonneg_right
      (hb.2 _ (List.mem_map_of_mem (fun h => (h.caloriesIntake : ℚ)) hr))
      (by norm_num)
  · rcases ha with h | ⟨x, hx, h⟩
    · exact Or.inl (by rw [maxVal, h])
    · rcases List.mem_map.mp hx with ⟨r, hr, rfl⟩
      exact Or.inr ⟨r, hr, by rw [maxVal, h]⟩

/-- C8 (witness): on the one-record window with intake 100 and TDEE 100,
both scaled values are dominated by the source's Y-scale maximum. -/
theorem maxVal_headroom_witness :
    (100 : ℚ) * (6/5) ≤ maxVal [wr2] 100
    ∧ (wr2.caloriesIntake : ℚ) * (6/5) ≤ maxVal [wr2] 100 :=
  ⟨(maxVal_headroom [wr2] 100).1,
   (maxVal_headroom [wr2] 100).2.1 wr2 (List.mem_singleton.mpr rfl)⟩

/-- C9 (counterexample): the claim says the curve is a cubic
Catmull-Rom-style interpolation, not merely straight segments; on the
three-record window with intakes 0, 100, 0 and TDEE 100 the rendered
curve's midpoint of segment 0 is the straight-line midpoint (25, 175/6),
while the spec's cubic puts it at (175/8, 425/16) — the source draws a
polyline, not the cubic. -/
theorem chartCurve_not_cubic :
    polylineSeg (chartPoints [wr1, wr2, wr3] 100) 0 (1/2) = (25, 175/6)
    ∧ specCatmullSeg (chartPoints [wr1, wr2, wr3] 100) 0 (1/2) = (175/8, 425/16)
    ∧ ((25 : ℚ), (175/6 : ℚ)) ≠ ((175/8 : ℚ), (425/16 : ℚ)) := by
  refine ⟨?_, ?_, ?_⟩
  · norm_num [polylineSeg, segEval, chartPoints, maxVal, getX, getY,
      wr1, wr2, wr3, List.enum]
  · norm_num [specCatmullSeg, bezierEval, chartPoints, maxVal, getX, getY,
      wr1, wr2, wr3, List.enum]
  · simp only [ne_eq, Prod.mk.injEq, not_and]
    intro h
    norm_num at h

/-- C9 (amended): the rendered trend curve is the polyline through the
plotted points: each segment starts at the `i`-th plotted point, ends at
the `(i+1)`-th, and is the straight-line interpolation between them (no
cubic smoothing is performed). -/
theorem polylineSeg_through_points (pts : List (ℚ × ℚ)) (i : ℕ)
    (h : i + 1 < pts.length) :
    polylineSeg pts i 0 = pts.get ⟨i, Nat.lt_of_succ_lt h⟩
    ∧ polylineSeg pts i 1 = pts.get ⟨i + 1, h⟩
    ∧ ∀ t : ℚ, polylineSeg pts i t =
        segEval (pts.get ⟨i, Nat.lt_of_succ_lt h⟩) (pts.get ⟨i + 1, h⟩) t := by
  have h1 : pts.getD i (0, 0) = pts.get ⟨i, Nat.lt_of_succ_lt h⟩ := by
    rw [List.getD_eq_getElem pts (0, 0) (Nat.lt_of_succ_lt h)]
    simp
  have h2 : pts.getD (i + 1) (0, 0) = pts.get ⟨i + 1, h⟩ := by
    rw [List.getD_eq_getElem pts (0, 0) h]
    simp
  refine ⟨?_, ?_, ?_⟩
  · rw [polylineSeg, h1, h2]
    simp [segEval]
  · rw [polylineSeg, h1, h2]
    simp [segEval]
  · intro t
    rw [polylineSeg, h1, h2]

/-- C9 (witness): on the three-record window the first rendered segment
runs from the first plotted point (0, 50) to the second (50, 25/3). -/
theorem polylineSeg_through_points_witness :
    polylineSeg (chartPoints [wr1, wr2, wr3] 100) 0 0 = (0, 50)
    ∧ polylineSeg (chartPoints [wr1, wr2, wr3] 100) 0 1 = (50, 25/3) := by
  have h := polylineSeg_through_points (chartPoints [wr1, wr2, wr3] 100) 0
    (by norm_num [chartPoints, wr1, wr2, wr3, List.enum])
  refine ⟨?_, ?_⟩
  · rw [h.1]
    norm_num [chartPoints, maxVal, getX, getY, wr1, wr2, wr3, List.enum]
  · rw [h.2.1]
    norm_num [chartPoints, maxVal, getX, getY, wr1, wr2, wr3, List.enum]

end WeightPredict
